import Mathlib

/-!
Verification of the KYC workflow core of the Blockchain_KYC backend.

The development shallowly embeds the Python services in
`backend/services/kyc_service.py`, `backend/services/face_verification.py`
and the repository layer `backend/database/kyc_repository.py`:

* MongoDB documents become Lean structures; the two collections the claims
  touch (`kyc_submissions`, `face_verifications`) become lists inside a
  `DBState`, kept in insertion order (Mongo natural order for an unsorted
  `find`).
* Python `datetime` values become `Nat` timestamps, similarity scores
  become `Rat`, decoded images become an abstract token type `Img`.
* External collaborators (validators, image decoding/face detection/model
  inference, blockchain client, id generation) and database faults are an
  `Env` of oracles and fault flags; each service run is quantified over
  every `Env`, so theorems cover all collaborator behaviours.
* A Python function body that may raise is an
  `Except (String × DBState)` computation (the error carries the state at
  the moment of the raise); a `try/except` block is a `match` on it.
  Calls whose Python implementation catches its own exceptions (the
  repository getters, the face sub-routines) are total functions, exactly
  as in the source.
-/

namespace KYC

/-! ## Python dictionary values

Nested `personal_info` / `identity_documents` dicts are association lists
from key to value, where a value of `none` is Python `None`. -/

/-- Association-list model of a Python dict whose values are strings or
`None`. -/
abbrev PyDict := List (String × Option String)

/-- Python `dict.pop(key, None)`: drop the binding for `key`. -/
def pyDictPop (d : PyDict) (k : String) : PyDict :=
  d.filter (fun p => !(p.1 == k))

/-- Python `{**old, **new}` at the lookup level: keys of `new` win. -/
def pyDictMerge (old new : PyDict) : PyDict :=
  old.map (fun p =>
    match List.lookup p.1 new with
    | some v => (p.1, v)
    | none => p)
  ++ new.filter (fun p => (List.lookup p.1 old).isNone)

/-- Python `max(xs, key=f)` on a nonempty list `x :: xs`: scans left to
right and replaces the current best only on a strictly greater key, hence
returns the first element attaining the maximum. -/
def pyMaxBy {α : Type} (key : α → Nat) (x : α) : List α → α
  | [] => x
  | y :: ys => pyMaxBy key (if key y > key x then y else x) ys

/-! ## Data model -/

/-- A document of the `kyc_submissions` collection, as built by
`KYCService.submit_kyc` and mutated by the status/update operations.
`face_image : Option (Option String)`: the outer layer is key presence
(the code tests `'face_image' not in approved_kyc`), the inner layer is a
possibly-`None` base64 string. -/
structure KYCSubmission where
  id : String
  submission_id : String
  user_id : String
  personal_info : PyDict
  identity_documents : PyDict
  face_image : Option (Option String)
  additional_documents : List String
  status : String
  admin_notes : Option String
  submission_date : Nat
  status_updated_at : Option Nat
  updated_at : Option Nat
  verification_attempts : Nat
deriving Repr, DecidableEq

/-- A document of the `face_verifications` collection, as built by
`FaceVerificationService.verify_face_with_stored_image` and stamped by
`KYCRepository.create_face_verification`. -/
structure FaceVerificationRecord where
  user_id : String
  kyc_submission_id : String
  similarity_score : Rat
  verification_result : Option Bool
  threshold_used : Rat
  verification_date : Nat
deriving Repr, DecidableEq

/-- The two collections the verified workflow reads and writes, in
insertion order. -/
structure DBState where
  submissions : List KYCSubmission
  face_verifications : List FaceVerificationRecord
deriving Repr, DecidableEq

/-! ## Collaborator result shapes -/

/-- Result dict of `utils.validators.validate_kyc_data`. -/
structure ValidationResult where
  valid : Bool
  errors : List String
deriving Repr, DecidableEq

/-- Result dict of `FaceVerificationService.validate_image_quality`
(restricted to the two keys the KYC service reads). -/
structure ImageValidation where
  valid : Bool
  message : String
deriving Repr, DecidableEq

/-- Result dict of `BlockchainService.store_kyc_verification` (restricted
to the keys the KYC service reads). -/
structure BlockchainResult where
  success : Bool
  message : String
  transaction_hash : Option String := none
deriving Repr, DecidableEq

/-- The `kyc_data` payload dict handed to `submit_kyc`, restricted to the
keys the service reads. Each `Option` is `.get`-style key lookup;
`face_image` again distinguishes key presence from a `None` value. -/
structure KYCData where
  full_name : Option String := none
  date_of_birth : Option String := none
  gender : Option String := none
  nationality : Option String := none
  address : Option String := none
  phone_number : Option String := none
  email : Option String := none
  document_type : Option String := none
  document_number : Option String := none
  document_image : Option String := none
  document_back_image : Option String := none
  face_image : Option (Option String) := none
  additional_documents : Option (List String) := none

/-- The `update_data` patch dict handed to `update_kyc_submission`,
restricted to the keys the merge step reads. -/
structure UpdateData where
  personal_info : Option PyDict := none
  identity_documents : Option PyDict := none
  face_image : Option (Option String) := none
  additional_documents : Option (List String) := none

/-- Decoded images are abstract tokens produced by the decode oracle. -/
abbrev Img := Nat

/-- A face bounding box as returned by `detectMultiScale`: `(x, y, w, h)`. -/
structure Rect where
  x : Nat
  y : Nat
  w : Nat
  h : Nat
deriving Repr, DecidableEq

/-- Bounding-box area `w * h`, the key of the `max` call in
`_detect_face`. -/
def Rect.area (r : Rect) : Nat := r.w * r.h

/-- Collaborator oracles and fault injection. Functions model external
code the service calls (validators, PIL/cv2, the Siamese model, the
blockchain client, id generation); the `db_*_fails` flags make the
corresponding pymongo call raise (for inserts and `update_one`) or make
the repository wrapper take its `except` branch (for the getters and
`update_kyc_status`, which catch their own errors). -/
structure Env where
  validate_kyc_data : KYCData → ValidationResult
  validate_kyc_data_partial : UpdateData → ValidationResult
  validate_image_quality : Option String → ImageValidation
  hash_sensitive_data : String → String
  blockchain_store : String → String → Bool → String → Except String BlockchainResult
  decode_image : String → Option Img
  detect_faces : Img → Except String (List Rect)
  extract_region : Img → Rect → Img
  preprocess : Img → Option Img
  compare_faces : Img → Img → Except String (Option Rat)
  threshold : Rat
  now : Nat
  new_uuid : String
  new_object_id : String
  db_find_user_fails : Bool
  db_find_id_fails : Bool
  db_insert_fails : Bool
  db_update_status_fails : Bool
  db_update_one_fails : Bool
  db_insert_fv_fails : Bool

/-! ## Repository layer (`database/kyc_repository.py`) -/

/-- `KYCRepository.get_kyc_submissions_by_user`: unsorted `find` on
`user_id`; its `except` branch returns `[]`. -/
def get_kyc_submissions_by_user (fail : Bool) (db : DBState) (user_id : String) :
    List KYCSubmission :=
  if fail then [] else db.submissions.filter (fun k => k.user_id == user_id)

/-- `KYCRepository.get_kyc_submission_by_id`: `find_one` on `_id`; its
`except` branch returns `None`. -/
def get_kyc_submission_by_id (fail : Bool) (db : DBState) (kyc_id : String) :
    Option KYCSubmission :=
  if fail then none else db.submissions.find? (fun k => k.id == kyc_id)

/-- Mongo `update_one`: rewrite the first document matching `p` with `f`;
the returned flag is `modified_count > 0`, true when a document matched
and actually changed. -/
def listUpdateOne (p : KYCSubmission → Bool) (f : KYCSubmission → KYCSubmission) :
    List KYCSubmission → List KYCSubmission × Bool
  | [] => ([], false)
  | k :: ks =>
    if p k then (f k :: ks, decide (f k ≠ k))
    else
      let r := listUpdateOne p f ks
      (k :: r.1, r.2)

/-- `KYCRepository.create_kyc_submission`: stamps `submission_date`,
`status`, `verification_attempts`, inserts (raising on database error)
and returns the new `_id`. -/
def create_kyc_submission (fail : Bool) (now : Nat) (oid : String) (db : DBState)
    (doc : KYCSubmission) : Except String (DBState × String) :=
  if fail then Except.error "insert failed"
  else
    let doc := { doc with
      id := oid, submission_date := now, status := "pending",
      verification_attempts := 0 }
    Except.ok ({ db with submissions := db.submissions ++ [doc] }, oid)

/-- The `$set` document of `KYCRepository.update_kyc_status`: status and
`status_updated_at` always, `admin_notes` only when truthy (Python
`if admin_notes:`, false for `None` and for the empty string). -/
def kyc_status_set_fields (now : Nat) (status : String)
    (admin_notes : Option String) (k : KYCSubmission) : KYCSubmission :=
  let k1 := { k with status := status, status_updated_at := some now }
  match admin_notes with
  | some s => if s = "" then k1 else { k1 with admin_notes := some s }
  | none => k1

/-- `KYCRepository.update_kyc_status`: `$set` of status,
`status_updated_at` and (when truthy) `admin_notes` on the matching
document; its `except` branch returns `False`. -/
def update_kyc_status (fail : Bool) (now : Nat) (db : DBState)
    (kyc_id status : String) (admin_notes : Option String) : DBState × Bool :=
  if fail then (db, false)
  else
    let r := listUpdateOne (fun k => k.id == kyc_id)
      (kyc_status_set_fields now status admin_notes) db.submissions
    ({ db with submissions := r.1 }, r.2)

/-- `KYCRepository.create_face_verification`: stamps `verification_date`
and inserts, raising on database error. -/
def create_face_verification (fail : Bool) (now : Nat) (db : DBState)
    (rec : FaceVerificationRecord) : Except String DBState :=
  if fail then Except.error "insert failed"
  else
    Except.ok { db with
      face_verifications :=
        db.face_verifications ++ [{ rec with verification_date := now }] }

/-! ## Face verification service (`services/face_verification.py`) -/

/-- Result dict of the face verification routines. `is_same_person` and
`threshold_used` are `Option` because `verify_face_with_stored_image`'s
early-return dicts omit those keys while every `verify_faces` branch sets
them. -/
structure FaceResult where
  success : Bool
  message : String
  similarity_score : Rat
  is_same_person : Option Bool := none
  threshold_used : Option Rat := none
deriving Repr, DecidableEq

/-- The bounding box `_detect_face` selects from the detector output:
Python `max(faces, key=lambda x: x[2] * x[3])`, `None` when no face was
detected. -/
def selected_face_rect (faces : List Rect) : Option Rect :=
  match faces with
  | [] => none
  | f :: fs => some (pyMaxBy Rect.area f fs)

/-- `FaceVerificationService._detect_face`: run the cascade detector,
return `None` on zero faces or an internal cv2 exception, otherwise slice
out the region of the largest bounding box. -/
def detect_face (env : Env) (img : Img) : Option Img :=
  match env.detect_faces img with
  | Except.error _ => none
  | Except.ok faces =>
    match selected_face_rect faces with
    | none => none
    | some r => some (env.extract_region img r)

/-- `FaceVerificationService.verify_faces`: detect a face in each image,
preprocess both, score them with the model and threshold the score; every
failure mode is a structured result, the catch-all turning a model
exception into the generic failure dict. -/
def verify_faces (env : Env) (image1 image2 : Img) : FaceResult :=
  match detect_face env image1 with
  | none =>
    { success := false, message := "No face detected in first image",
      similarity_score := 0, is_same_person := some false }
  | some face1 =>
    match detect_face env image2 with
    | none =>
      { success := false, message := "No face detected in second image",
        similarity_score := 0, is_same_person := some false }
    | some face2 =>
      match env.preprocess face1, env.preprocess face2 with
      | some p1, some p2 =>
        match env.compare_faces p1 p2 with
        | Except.error _ =>
          { success := false,
            message := "Face verification failed due to system error",
            similarity_score := 0, is_same_person := some false }
        | Except.ok none =>
          { success := false, message := "Face comparison failed",
            similarity_score := 0, is_same_person := some false }
        | Except.ok (some score) =>
          { success := true,
            message := "Face verification completed successfully",
            similarity_score := score,
            is_same_person := some (decide (score > env.threshold)),
            threshold_used := some env.threshold }
      | _, _ =>
        { success := false, message := "Failed to preprocess faces",
          similarity_score := 0, is_same_person := some false }

/-- `_decode_base64_image` applied to a stored `face_image` value: a
`None` value raises inside the decoder, whose catch-all returns `None`. -/
def decode_stored_image (env : Env) (v : Option String) : Option Img :=
  match v with
  | none => none
  | some s => env.decode_image s

/-- Try-block of
`FaceVerificationService.verify_face_with_stored_image`: fetch the user's
submissions, take the first approved one, require its `face_image` key,
decode both images, run `verify_faces`, then append the audit record
(whose insert may raise) and return the verification result. -/
def verify_face_with_stored_image_body (env : Env) (db : DBState)
    (user_id live_image : String) : Except (String × DBState) (DBState × FaceResult) :=
  let kyc_submissions := get_kyc_submissions_by_user env.db_find_user_fails db user_id
  if kyc_submissions.isEmpty then
    Except.ok (db,
      { success := false, message := "No KYC submission found for user",
        similarity_score := 0 })
  else
    match kyc_submissions.find? (fun k => k.status == "approved") with
    | none =>
      Except.ok (db,
        { success := false,
          message := "No approved KYC submission with face image found",
          similarity_score := 0 })
    | some approved_kyc =>
      match approved_kyc.face_image with
      | none =>
        Except.ok (db,
          { success := false,
            message := "No approved KYC submission with face image found",
            similarity_score := 0 })
      | some stored_value =>
        match env.decode_image live_image, decode_stored_image env stored_value with
        | some live_arr, some stored_arr =>
          let result := verify_faces env live_arr stored_arr
          let verification_data : FaceVerificationRecord :=
            { user_id := user_id, kyc_submission_id := approved_kyc.id,
              similarity_score := result.similarity_score,
              verification_result := result.is_same_person,
              threshold_used := env.threshold, verification_date := 0 }
          match create_face_verification env.db_insert_fv_fails env.now db
              verification_data with
          | Except.error e => Except.error (e, db)
          | Except.ok db1 => Except.ok (db1, result)
        | _, _ =>
          Except.ok (db,
            { success := false, message := "Failed to decode images",
              similarity_score := 0 })

/-- Generic failure dict of `verify_face_with_stored_image`'s except
branch. -/
def face_generic_failure : FaceResult :=
  { success := false, message := "Face verification failed due to system error",
    similarity_score := 0 }

/-- `FaceVerificationService.verify_face_with_stored_image` including its
catch-all. -/
def verify_face_with_stored_image (env : Env) (db : DBState)
    (user_id live_image : String) : DBState × FaceResult :=
  match verify_face_with_stored_image_body env db user_id live_image with
  | Except.ok r => r
  | Except.error (_, db1) => (db1, face_generic_failure)

/-! ## KYC workflow service (`services/kyc_service.py`) -/

/-- Result dict of `submit_kyc` (keys the code writes; `none` = absent). -/
structure SubmitResult where
  success : Bool
  message : String
  kyc_id : Option String := none
  submission_id : Option String := none
  status : Option String := none
deriving Repr, DecidableEq

/-- Result dict of `get_kyc_status`. -/
structure StatusResult where
  success : Bool
  status : Option String := none
  message : Option String := none
  kyc_id : Option String := none
  submission_date : Option Nat := none
  last_updated : Option Nat := none
  admin_notes : Option String := none
  verification_attempts : Option Nat := none
deriving Repr, DecidableEq

/-- Result dict of `verify_kyc_submission`. -/
structure VerifyResult where
  success : Bool
  message : String
  status : Option String := none
  admin_notes : Option String := none
deriving Repr, DecidableEq

/-- Result dict of `update_kyc_submission`. -/
structure UpdateResult where
  success : Bool
  message : String
  status : Option String := none
deriving Repr, DecidableEq

/-- Result dict of `get_kyc_details`. -/
structure DetailsResult where
  success : Bool
  message : Option String := none
  kyc_submission : Option KYCSubmission := none
deriving Repr, DecidableEq

/-- Generic failure dict of `submit_kyc`'s except branch. -/
def submit_generic_failure : SubmitResult :=
  { success := false, message := "KYC submission failed due to system error" }

/-- The submission document `submit_kyc` assembles before handing it to
the repository (the repository then assigns `_id` and restamps the date,
status and attempt counter). -/
def build_submission_doc (env : Env) (user_id : String) (d : KYCData) :
    KYCSubmission :=
  { id := "", submission_id := env.new_uuid, user_id := user_id,
    personal_info :=
      [("full_name", d.full_name), ("date_of_birth", d.date_of_birth),
       ("gender", d.gender), ("nationality", d.nationality),
       ("address", d.address), ("phone_number", d.phone_number),
       ("email", d.email)],
    identity_documents :=
      [("document_type", d.document_type),
       ("document_number",
         some (env.hash_sensitive_data (d.document_number.getD ""))),
       ("document_image", d.document_image),
       ("document_back_image", d.document_back_image)],
    face_image := some d.face_image.join,
    additional_documents := d.additional_documents.getD [],
    status := "pending", admin_notes := none,
    submission_date := env.now, status_updated_at := none,
    updated_at := none, verification_attempts := 0 }

/-- Try-block of `KYCService.submit_kyc`: validate the payload, reject a
user who already has a pending or approved submission, check face image
quality when one is supplied, then build and insert the document (the
insert may raise). -/
def submit_kyc_body (env : Env) (db : DBState) (user_id : String) (d : KYCData) :
    Except (String × DBState) (DBState × SubmitResult) :=
  let validation_result := env.validate_kyc_data d
  if !validation_result.valid then
    Except.ok (db,
      { success := false,
        message := "Validation failed: " ++
          String.intercalate ", " validation_result.errors })
  else
    let existing_kyc := get_kyc_submissions_by_user env.db_find_user_fails db user_id
    match existing_kyc.find? (fun k => k.status == "pending" || k.status == "approved") with
    | some kyc =>
      Except.ok (db,
        { success := false,
          message := "User already has " ++ kyc.status ++ " KYC submission" })
    | none =>
      let faceCheck : Option SubmitResult :=
        match d.face_image with
        | some v =>
          let image_validation := env.validate_image_quality v
          if image_validation.valid then none
          else some
            { success := false,
              message := "Face image validation failed: " ++ image_validation.message }
        | none => none
      match faceCheck with
      | some r => Except.ok (db, r)
      | none =>
        let submission_data := build_submission_doc env user_id d
        match create_kyc_submission env.db_insert_fails env.now env.new_object_id
            db submission_data with
        | Except.error e => Except.error (e, db)
        | Except.ok (db1, kyc_id) =>
          Except.ok (db1,
            { success := true, message := "KYC submission created successfully",
              kyc_id := some kyc_id, submission_id := some env.new_uuid,
              status := some "pending" })

/-- `KYCService.submit_kyc` including its catch-all. -/
def submit_kyc (env : Env) (db : DBState) (user_id : String) (d : KYCData) :
    DBState × SubmitResult :=
  match submit_kyc_body env db user_id d with
  | Except.ok r => r
  | Except.error (_, db1) => (db1, submit_generic_failure)

/-- `KYCService.get_kyc_status`: `not_submitted` when the user has no
submissions, otherwise the fields of the submission with the greatest
`submission_date` (first such, per Python `max`). -/
def get_kyc_status (env : Env) (db : DBState) (user_id : String) : StatusResult :=
  let kyc_submissions := get_kyc_submissions_by_user env.db_find_user_fails db user_id
  match kyc_submissions with
  | [] =>
    { success := true, status := some "not_submitted",
      message := some "No KYC submission found" }
  | x :: xs =>
    let latest_kyc := pyMaxBy (fun k => k.submission_date) x xs
    { success := true, status := some latest_kyc.status,
      kyc_id := some latest_kyc.id,
      submission_date := some latest_kyc.submission_date,
      last_updated := latest_kyc.status_updated_at,
      admin_notes := latest_kyc.admin_notes,
      verification_attempts := some latest_kyc.verification_attempts }

/-- Generic failure dict of `get_kyc_status`'s except branch. -/
def status_generic_failure : StatusResult :=
  { success := false, message := some "Failed to retrieve KYC status" }

/-- Try-block of `get_kyc_status` (read-only; the repository getter
catches its own errors, so the body never raises). -/
def get_kyc_status_body (env : Env) (db : DBState) (user_id : String) :
    Except (String × DBState) (DBState × StatusResult) :=
  Except.ok (db, get_kyc_status env db user_id)

/-- Generic failure dict of `verify_kyc_submission`'s except branch. -/
def verify_generic_failure : VerifyResult :=
  { success := false, message := "KYC verification failed due to system error" }

/-- Try-block of `KYCService.verify_kyc_submission`: check the decision
literal, fetch the submission, refuse anything not pending, persist the
new status and notes, then — on approval only — attempt the blockchain
anchor inside its own try/except whose outcome never alters the returned
result or the local update. -/
def verify_kyc_submission_body (env : Env) (db : DBState)
    (kyc_id admin_id decision : String) (notes : Option String) :
    Except (String × DBState) (DBState × VerifyResult) :=
  if decision = "approved" ∨ decision = "rejected" then
    match get_kyc_submission_by_id env.db_find_id_fails db kyc_id with
    | none =>
      Except.ok (db, { success := false, message := "KYC submission not found" })
    | some kyc_submission =>
      if kyc_submission.status = "pending" then
        let admin_notes := "Verified by admin " ++ admin_id ++ ". " ++ notes.getD ""
        let upd := update_kyc_status env.db_update_status_fails env.now db
          kyc_id decision (some admin_notes)
        if upd.2 then
          -- the inner try/except around the blockchain call: both a
          -- failure result and a raised exception are only logged
          let _anchor :=
            if decision = "approved" then
              some (env.blockchain_store kyc_submission.user_id kyc_id true admin_id)
            else none
          Except.ok (upd.1,
            { success := true,
              message := "KYC submission " ++ decision ++ " successfully",
              status := some decision, admin_notes := some admin_notes })
        else
          Except.ok (upd.1,
            { success := false, message := "Failed to update KYC status" })
      else
        Except.ok (db,
          { success := false,
            message := "KYC submission is already " ++ kyc_submission.status })
  else
    Except.ok (db,
      { success := false,
        message := "Invalid decision. Must be approved or rejected" })

/-- `KYCService.verify_kyc_submission` including its catch-all. -/
def verify_kyc_submission (env : Env) (db : DBState)
    (kyc_id admin_id decision : String) (notes : Option String) :
    DBState × VerifyResult :=
  match verify_kyc_submission_body env db kyc_id admin_id decision notes with
  | Except.ok r => r
  | Except.error (_, db1) => (db1, verify_generic_failure)

/-- Generic failure dict of `update_kyc_submission`'s except branch. -/
def update_generic_failure : UpdateResult :=
  { success := false, message := "KYC update failed due to system error" }

/-- A BSON `_id` value: either a pymongo `ObjectId` or a plain string.
Mongo filters compare BSON values, and values of different BSON types
never compare equal. -/
inductive BsonId where
  | objectId (hex : String)
  | str (s : String)
deriving Repr, DecidableEq

/-- The `update_one` filter of `update_kyc_submission`
(`kyc_service.py:267`): it passes `kyc_submission['_id']`, which
`get_kyc_submission_by_id` has already stringified
(`kyc_repository.py:89`), while the stored documents keep their
pymongo-assigned `ObjectId` keys — so a stored document matches only if
the BSON string equals the BSON ObjectId, which never holds. (Every
repository method wraps the id back with `ObjectId(...)`; this direct
collection access does not.) -/
def update_one_id_filter (sid : String) (k : KYCSubmission) : Bool :=
  BsonId.str sid == BsonId.objectId k.id

/-- The `$set` document of `update_kyc_submission`: always resets the
status to pending and restamps `updated_at`, then overlays whichever of
the four patchable sections are present in the request. -/
def apply_update_fields (env : Env) (old : KYCSubmission) (d : UpdateData) :
    KYCSubmission :=
  let k0 := { old with status := "pending", updated_at := some env.now }
  let k1 := match d.personal_info with
    | some p => { k0 with personal_info := pyDictMerge old.personal_info p }
    | none => k0
  let k2 := match d.identity_documents with
    | some p => { k1 with identity_documents := pyDictMerge old.identity_documents p }
    | none => k1
  let k3 := match d.face_image with
    | some v => { k2 with face_image := some v }
    | none => k2
  match d.additional_documents with
  | some a => { k3 with additional_documents := a }
  | none => k3

/-- Try-block of `KYCService.update_kyc_submission`: fetch, check
ownership, allow only pending or rejected submissions, validate the patch
(partial mode) and the new face image if any, then run `update_one`
directly on the collection (which may raise) with the string-versus-
ObjectId `_id` filter, and report success only when a document was
modified. -/
def update_kyc_submission_body (env : Env) (db : DBState)
    (kyc_id user_id : String) (d : UpdateData) :
    Except (String × DBState) (DBState × UpdateResult) :=
  match get_kyc_submission_by_id env.db_find_id_fails db kyc_id with
  | none =>
    Except.ok (db, { success := false, message := "KYC submission not found" })
  | some kyc_submission =>
    if kyc_submission.user_id = user_id then
      if kyc_submission.status = "pending" ∨ kyc_submission.status = "rejected" then
        let validation_result := env.validate_kyc_data_partial d
        if !validation_result.valid then
          Except.ok (db,
            { success := false,
              message := "Validation failed: " ++
                String.intercalate ", " validation_result.errors })
        else
          let faceCheck : Option UpdateResult :=
            match d.face_image with
            | some v =>
              let image_validation := env.validate_image_quality v
              if image_validation.valid then none
              else some
                { success := false,
                  message := "Face image validation failed: " ++
                    image_validation.message }
            | none => none
          match faceCheck with
          | some r => Except.ok (db, r)
          | none =>
            if env.db_update_one_fails then
              Except.error ("update_one failed", db)
            else
              let r := listUpdateOne (update_one_id_filter kyc_submission.id)
                (fun k => apply_update_fields env k d) db.submissions
              let db1 : DBState := { db with submissions := r.1 }
              if r.2 then
                Except.ok (db1,
                  { success := true,
                    message := "KYC submission updated successfully",
                    status := some "pending" })
              else
                Except.ok (db1,
                  { success := false,
                    message := "No changes were made to KYC submission" })
      else
        Except.ok (db,
          { success := false,
            message := "Cannot update " ++ kyc_submission.status ++
              " KYC submission" })
    else
      Except.ok (db,
        { success := false,
          message := "Access denied: KYC submission belongs to different user" })

/-- `KYCService.update_kyc_submission` including its catch-all. -/
def update_kyc_submission (env : Env) (db : DBState)
    (kyc_id user_id : String) (d : UpdateData) : DBState × UpdateResult :=
  match update_kyc_submission_body env db kyc_id user_id d with
  | Except.ok r => r
  | Except.error (_, db1) => (db1, update_generic_failure)

/-- Redaction step of `get_kyc_details` for non-admin callers: pop the
document number out of `identity_documents` and drop `admin_notes`. -/
def redact_submission (k : KYCSubmission) : KYCSubmission :=
  { k with identity_documents := pyDictPop k.identity_documents "document_number",
           admin_notes := none }

/-- `KYCService.get_kyc_details`: fetch by id, enforce ownership for a
non-admin caller that supplied a truthy `user_id`, and redact sensitive
fields unless `admin` is set. Read-only. -/
def get_kyc_details (env : Env) (db : DBState) (kyc_id : String)
    (user_id : Option String) (admin : Bool) : DetailsResult :=
  match get_kyc_submission_by_id env.db_find_id_fails db kyc_id with
  | none => { success := false, message := some "KYC submission not found" }
  | some kyc_submission =>
    let uid_truthy : Bool := match user_id with
      | some s => s != ""
      | none => false
    if admin = false ∧ uid_truthy = true ∧ user_id ≠ some kyc_submission.user_id then
      { success := false, message := some "Access denied" }
    else if admin then
      { success := true, kyc_submission := some kyc_submission }
    else
      { success := true, kyc_submission := some (redact_submission kyc_submission) }

/-- Generic failure dict of `perform_face_verification`'s except branch. -/
def perform_generic_failure : FaceResult :=
  { success := false, message := "Face verification failed due to system error",
    similarity_score := 0 }

/-- Try-block of `KYCService.perform_face_verification`: delegates to the
face service, whose own catch-all already makes it total. -/
def perform_face_verification_body (env : Env) (db : DBState)
    (user_id live_image : String) :
    Except (String × DBState) (DBState × FaceResult) :=
  Except.ok (verify_face_with_stored_image env db user_id live_image)

/-- `KYCService.perform_face_verification` including its catch-all. -/
def perform_face_verification (env : Env) (db : DBState)
    (user_id live_image : String) : DBState × FaceResult :=
  match perform_face_verification_body env db user_id live_image with
  | Except.ok r => r
  | Except.error (_, db1) => (db1, perform_generic_failure)

/-- Python semantics of running a whole service method: the try-block
composed with an `except Exception` handler that returns the generic
failure dict with the state as of the raise. The composite itself is a
Python call, so it still formally has the exceptional type; `no
exception escapes` is the statement that it always lands in `Except.ok`. -/
def pyCatch {α : Type} (body : Except (String × DBState) (DBState × α))
    (handler : α) : Except (String × DBState) (DBState × α) :=
  match body with
  | Except.ok r => Except.ok r
  | Except.error (_, db1) => Except.ok (db1, handler)

/-! ## Invariant vocabulary -/

/-- The conflict predicate of `submit_kyc`: a submission whose status is
pending or approved. -/
def isActiveSub (k : KYCSubmission) : Bool :=
  k.status == "pending" || k.status == "approved"

/-- Number of pending-or-approved submissions a user owns. -/
def activeCount (db : DBState) (u : String) : Nat :=
  db.submissions.countP (fun k => k.user_id == u && isActiveSub k)

/-- Boolean form of an anchoring failure: the blockchain collaborator
either raised or returned an unsuccessful result dict. -/
def is_anchor_failure : Except String BlockchainResult → Bool
  | Except.error _ => true
  | Except.ok r => !r.success

/-! ## Concrete fixtures used by the witness theorems -/

/-- A benign oracle environment: validation passes, images decode, one
face is detected, the model scores 9/10 against a 4/5 threshold, ids are
fixed and no database call faults. -/
def envT : Env :=
  { validate_kyc_data := fun _ => { valid := true, errors := [] },
    validate_kyc_data_partial := fun _ => { valid := true, errors := [] },
    validate_image_quality := fun _ =>
      { valid := true, message := "Image quality is acceptable" },
    hash_sensitive_data := fun s => s ++ "#h",
    blockchain_store := fun _ _ _ _ => Except.error "node unreachable",
    decode_image := fun _ => some 1,
    detect_faces := fun _ => Except.ok [{ x := 0, y := 0, w := 3, h := 3 }],
    extract_region := fun i _ => i,
    preprocess := fun i => some i,
    compare_faces := fun _ _ => Except.ok (some (9 / 10)),
    threshold := 4 / 5,
    now := 100,
    new_uuid := "uuid-1",
    new_object_id := "oid-1",
    db_find_user_fails := false, db_find_id_fails := false,
    db_insert_fails := false, db_update_status_fails := false,
    db_update_one_fails := false, db_insert_fv_fails := false }

/-- A pending submission of user `u1`. -/
def subPending : KYCSubmission :=
  { id := "k1", submission_id := "s1", user_id := "u1",
    personal_info := [("full_name", some "Ann Lee")],
    identity_documents := [("document_type", some "passport"),
                           ("document_number", some "P1234567#h")],
    face_image := some (some "faceP"), additional_documents := [],
    status := "pending", admin_notes := none, submission_date := 10,
    status_updated_at := none, updated_at := none,
    verification_attempts := 0 }

/-- A rejected submission of user `u1`, submitted earlier. -/
def subRejected : KYCSubmission :=
  { subPending with
    id := "k0", submission_id := "s0",
    status := "rejected", submission_date := 5,
    admin_notes := some "blurry document" }

/-- An approved submission of user `u1` with an early submission date. -/
def subApprovedOld : KYCSubmission :=
  { subPending with
    id := "kA", submission_id := "sA",
    status := "approved", submission_date := 1,
    face_image := some (some "faceOld") }

/-- An approved submission of user `u1` with a later submission date. -/
def subApprovedNew : KYCSubmission :=
  { subPending with
    id := "kB", submission_id := "sB",
    status := "approved", submission_date := 50,
    face_image := some (some "faceNew") }

/-- Database holding the two approved submissions of `u1` in insertion
order, oldest first: the input exhibiting the stored-image selection bug. -/
def dbTwoApproved : DBState :=
  { submissions := [subApprovedOld, subApprovedNew], face_verifications := [] }

/-- Database holding only the rejected submission of `u1`. -/
def dbRejected : DBState :=
  { submissions := [subRejected], face_verifications := [] }

/-- A resubmission patch: a corrected address only. -/
def patchU : UpdateData :=
  { personal_info := some [("address", some "12 New Road, Springfield")] }

/-- Oracle environment whose detector reports three faces (the second
box being the largest) on image `1` and no face at all on any other
image. -/
def envFaces : Env :=
  { envT with
    detect_faces := fun i =>
      if i = 1 then
        Except.ok [{ x := 0, y := 0, w := 2, h := 2 },
                   { x := 5, y := 5, w := 9, h := 9 },
                   { x := 1, y := 1, w := 3, h := 3 }]
      else Except.ok [] }

/-! ## Helper lemmas -/

/-- Python `max` returns an element of the scanned list. -/
theorem pyMaxBy_mem {α : Type} (key : α → Nat) :
    ∀ (xs : List α) (x : α), pyMaxBy key x xs ∈ x :: xs := by
  intro xs
  induction xs with
  | nil =>
    intro x
    simp [pyMaxBy]
  | cons y ys ih =>
    intro x
    have h := ih (if key y > key x then y else x)
    simp only [pyMaxBy]
    rcases List.mem_cons.1 h with h1 | h1
    · rw [h1]
      split
      · exact List.mem_cons_of_mem _ (List.mem_cons_self _ _)
      · exact List.mem_cons_self _ _
    · exact List.mem_cons_of_mem _ (List.mem_cons_of_mem _ h1)

/-- The seed's key never exceeds the key of the Python `max`. -/
theorem pyMaxBy_key_le {α : Type} (key : α → Nat) :
    ∀ (xs : List α) (x : α), key x ≤ key (pyMaxBy key x xs) := by
  intro xs
  induction xs with
  | nil =>
    intro x
    simp [pyMaxBy]
  | cons y ys ih =>
    intro x
    simp only [pyMaxBy]
    refine le_trans ?_ (ih (if key y > key x then y else x))
    split <;> omega

/-- Python `max` dominates the key of every scanned element. -/
theorem pyMaxBy_ge {α : Type} (key : α → Nat) :
    ∀ (xs : List α) (x a : α), a ∈ x :: xs → key a ≤ key (pyMaxBy key x xs) := by
  intro xs
  induction xs with
  | nil =>
    intro x a ha
    rcases List.mem_cons.1 ha with h | h
    · subst h; simp [pyMaxBy]
    · simp at h
  | cons y ys ih =>
    intro x a ha
    simp only [pyMaxBy]
    have hx : key x ≤ key (if key y > key x then y else x) := by split <;> omega
    have hy : key y ≤ key (if key y > key x then y else x) := by split <;> omega
    rcases List.mem_cons.1 ha with h1 | h1
    · subst h1
      exact le_trans hx (pyMaxBy_key_le key ys _)
    · rcases List.mem_cons.1 h1 with h2 | h2
      · subst h2
        exact le_trans hy (pyMaxBy_key_le key ys _)
      · exact ih _ a (List.mem_cons_of_mem _ h2)

/-- Behaviour of Mongo `update_one` on the first match: when `find?`
locates `k` and the rewrite preserves the match predicate, the updated
list's first match is `f k` and the modified flag records whether the
document actually changed. -/
theorem listUpdateOne_find?_some (p : KYCSubmission → Bool)
    (f : KYCSubmission → KYCSubmission) (hpf : ∀ x, p (f x) = p x) :
    ∀ (l : List KYCSubmission) (k : KYCSubmission), l.find? p = some k →
      (listUpdateOne p f l).1.find? p = some (f k) ∧
      (listUpdateOne p f l).2 = decide (f k ≠ k) := by
  intro l
  induction l with
  | nil =>
    intro k h
    simp at h
  | cons x xs ih =>
    intro k h
    by_cases hx : p x = true
    · rw [List.find?_cons_of_pos _ hx] at h
      cases h
      constructor
      · simp only [listUpdateOne, if_pos hx]
        exact List.find?_cons_of_pos _ (by rw [hpf]; exact hx)
      · simp only [listUpdateOne, if_pos hx]
    · rw [List.find?_cons_of_neg _ hx] at h
      have hrec := ih k h
      constructor
      · simp only [listUpdateOne, if_neg hx]
        rw [List.find?_cons_of_neg _ hx]
        exact hrec.1
      · simp only [listUpdateOne, if_neg hx]
        exact hrec.2

/-- Popping a key from a dict removes every binding for it. -/
theorem lookup_pyDictPop (d : PyDict) (k : String) :
    List.lookup k (pyDictPop d k) = none := by
  induction d with
  | nil => rfl
  | cons p rest ih =>
    obtain ⟨a, v⟩ := p
    by_cases ha : a = k
    · simpa [pyDictPop, ha] using ih
    · have hak : (a == k) = false := by simpa using ha
      have hka : (k == a) = false := by simpa using Ne.symm ha
      simpa [pyDictPop, hak, List.lookup, hka] using ih

/-! ## Claim theorems -/

/-- C9: no exception escapes the KYC workflow service boundary. For every
oracle behaviour (including raising collaborators) and every input, each
public `KYCService` operation — its try-block run under the
`except Exception` handler — lands in `Except.ok` carrying the structured
result dict (whose `success` flag is part of the result type), the
handler substituting the generic failure dict whenever the body raised. -/
theorem no_exception_escapes_service_boundary (env : Env) (db : DBState)
    (user_id kyc_id admin_id decision live_image : String)
    (notes : Option String) (d : KYCData) (u : UpdateData) :
    pyCatch (submit_kyc_body env db user_id d) submit_generic_failure =
      Except.ok (submit_kyc env db user_id d) ∧
    pyCatch (get_kyc_status_body env db user_id) status_generic_failure =
      Except.ok (db, get_kyc_status env db user_id) ∧
    pyCatch (verify_kyc_submission_body env db kyc_id admin_id decision notes)
        verify_generic_failure =
      Except.ok (verify_kyc_submission env db kyc_id admin_id decision notes) ∧
    pyCatch (update_kyc_submission_body env db kyc_id user_id u)
        update_generic_failure =
      Except.ok (update_kyc_submission env db kyc_id user_id u) ∧
    pyCatch (perform_face_verification_body env db user_id live_image)
        perform_generic_failure =
      Except.ok (perform_face_verification env db user_id live_image) := by
  refine ⟨?_, ?_, ?_, ?_, ?_⟩
  · rcases h : submit_kyc_body env db user_id d with ⟨e, db1⟩ | r <;>
      simp [pyCatch, submit_kyc, h]
  · simp [pyCatch, get_kyc_status_body]
  · rcases h : verify_kyc_submission_body env db kyc_id admin_id decision notes
      with ⟨e, db1⟩ | r <;> simp [pyCatch, verify_kyc_submission, h]
  · rcases h : update_kyc_submission_body env db kyc_id user_id u
      with ⟨e, db1⟩ | r <;> simp [pyCatch, update_kyc_submission, h]
  · simp [pyCatch, perform_face_verification, perform_face_verification_body]

/-- C5: `get_kyc_status` returns `not_submitted` when the user has no
submissions, and otherwise the fields of a submission of the user whose
`submission_date` dominates every submission of the user (the most
recently submitted record). -/
theorem get_kyc_status_not_submitted_or_latest (env : Env) (db : DBState)
    (user_id : String) (hf : env.db_find_user_fails = false) :
    (db.submissions.filter (fun k => k.user_id == user_id) = [] →
      get_kyc_status env db user_id =
        { success := true, status := some "not_submitted",
          message := some "No KYC submission found" }) ∧
    (∀ x xs, db.submissions.filter (fun k => k.user_id == user_id) = x :: xs →
      ∃ m, m ∈ x :: xs ∧
        (∀ s ∈ x :: xs, s.submission_date ≤ m.submission_date) ∧
        get_kyc_status env db user_id =
          { success := true, status := some m.status, kyc_id := some m.id,
            submission_date := some m.submission_date,
            last_updated := m.status_updated_at,
            admin_notes := m.admin_notes,
            verification_attempts := some m.verification_attempts }) := by
  constructor
  · intro h
    simp [get_kyc_status, get_kyc_submissions_by_user, hf, h]
  · intro x xs h
    refine ⟨pyMaxBy (fun k => k.submission_date) x xs, pyMaxBy_mem _ xs x,
      fun s hs => pyMaxBy_ge _ xs x s hs, ?_⟩
    simp [get_kyc_status, get_kyc_submissions_by_user, hf, h]

/-- Witness for C5 at a concrete database: one pending submission of
`u1`. -/
theorem get_kyc_status_latest_witness :
    envT.db_find_user_fails = false ∧
    (∃ m, m ∈ [subPending] ∧
      (∀ s ∈ [subPending], s.submission_date ≤ m.submission_date) ∧
      get_kyc_status envT
          { submissions := [subPending], face_verifications := [] } "u1" =
        { success := true, status := some m.status, kyc_id := some m.id,
          submission_date := some m.submission_date,
          last_updated := m.status_updated_at,
          admin_notes := m.admin_notes,
          verification_attempts := some m.verification_attempts }) :=
  ⟨rfl,
    (get_kyc_status_not_submitted_or_latest envT
      { submissions := [subPending], face_verifications := [] } "u1" rfl).2
      subPending [] (by decide)⟩

/-- C10: `get_kyc_details` with `admin = False` never returns the
identity document number nor the admin notes, while an `admin = True`
call returns the stored submission intact. -/
theorem get_kyc_details_redacts_for_non_admin (env : Env) (db : DBState)
    (kyc_id : String) (user_id : Option String) :
    (∀ s, (get_kyc_details env db kyc_id user_id false).kyc_submission = some s →
      List.lookup "document_number" s.identity_documents = none ∧
      s.admin_notes = none) ∧
    (∀ k, env.db_find_id_fails = false →
      get_kyc_submission_by_id false db kyc_id = some k →
      get_kyc_details env db kyc_id user_id true =
        { success := true, kyc_submission := some k }) := by
  constructor
  · intro s hs
    rcases hfind : get_kyc_submission_by_id env.db_find_id_fails db kyc_id
      with _ | k
    · simp [get_kyc_details, hfind] at hs
    · simp only [get_kyc_details, hfind] at hs
      split at hs
      · simp at hs
      · rw [if_neg Bool.false_ne_true] at hs
        have hsr : redact_submission k = s := by simpa using hs
        subst hsr
        exact ⟨lookup_pyDictPop _ _, rfl⟩
  · intro k hf hk
    simp [get_kyc_details, hf, hk]

/-- Witness for C10: redaction of a stored pending submission and the
intact admin view. -/
theorem get_kyc_details_redacts_witness :
    ((get_kyc_details envT { submissions := [subPending], face_verifications := [] }
        "k1" (some "u1") false).kyc_submission = some (redact_submission subPending)) ∧
    (List.lookup "document_number" (redact_submission subPending).identity_documents
        = none ∧ (redact_submission subPending).admin_notes = none) ∧
    (get_kyc_details envT { submissions := [subPending], face_verifications := [] }
        "k1" (some "u1") true =
      { success := true, kyc_submission := some subPending }) :=
  ⟨by decide,
    (get_kyc_details_redacts_for_non_admin envT
      { submissions := [subPending], face_verifications := [] } "k1"
      (some "u1")).1 (redact_submission subPending) (by decide),
    (get_kyc_details_redacts_for_non_admin envT
      { submissions := [subPending], face_verifications := [] } "k1"
      (some "u1")).2 subPending rfl (by decide)⟩

/-- C2: `verify_kyc_submission` succeeds only when the target submission
exists and is pending; whenever the submission is missing, or its status
is already `approved` or `rejected` (a second decide call), the call
returns a failure result and leaves the database — hence the submission —
unchanged. -/
theorem verify_kyc_submission_requires_pending (env : Env) (db : DBState)
    (kyc_id admin_id decision : String) (notes : Option String)
    (hf : env.db_find_id_fails = false) :
    (get_kyc_submission_by_id false db kyc_id = none →
      ∃ r, verify_kyc_submission env db kyc_id admin_id decision notes = (db, r) ∧
        r.success = false) ∧
    (∀ k, get_kyc_submission_by_id false db kyc_id = some k →
      (k.status = "approved" ∨ k.status = "rejected") →
      ∃ r, verify_kyc_submission env db kyc_id admin_id decision notes = (db, r) ∧
        r.success = false) ∧
    ((verify_kyc_submission env db kyc_id admin_id decision notes).2.success = true →
      ∃ k, get_kyc_submission_by_id false db kyc_id = some k ∧
        k.status = "pending") := by
  refine ⟨?_, ?_, ?_⟩
  · intro hnone
    by_cases hd : decision = "approved" ∨ decision = "rejected"
    · refine ⟨{ success := false, message := "KYC submission not found" }, ?_, rfl⟩
      simp [verify_kyc_submission, verify_kyc_submission_body, hd, hf, hnone]
    · refine ⟨{ success := false, message := "Invalid decision. Must be approved or rejected" }, ?_, rfl⟩
      simp [verify_kyc_submission, verify_kyc_submission_body, hd]
  · intro k hk hst
    have hnp : ¬ k.status = "pending" := by
      rcases hst with h | h <;> simp [h]
    by_cases hd : decision = "approved" ∨ decision = "rejected"
    · refine ⟨{ success := false, message := "KYC submission is already " ++ k.status }, ?_, rfl⟩
      simp [verify_kyc_submission, verify_kyc_submission_body, hd, hf, hk, hnp]
    · refine ⟨{ success := false, message := "Invalid decision. Must be approved or rejected" }, ?_, rfl⟩
      simp [verify_kyc_submission, verify_kyc_submission_body, hd]
  · intro hsucc
    simp only [verify_kyc_submission, verify_kyc_submission_body, hf] at hsucc
    by_cases hd : decision = "approved" ∨ decision = "rejected"
    · rcases hfind : get_kyc_submission_by_id false db kyc_id with _ | k
      · simp [hd, hfind] at hsucc
      · by_cases hst : k.status = "pending"
        · exact ⟨k, rfl, hst⟩
        · simp [hd, hfind, hst] at hsucc
    · simp [hd] at hsucc

/-- Witness for C2: a second decide call on an already-approved
submission fails without touching the database. -/
theorem verify_kyc_requires_pending_witness :
    envT.db_find_id_fails = false ∧
    get_kyc_submission_by_id false
        { submissions := [subApprovedOld], face_verifications := [] } "kA" =
      some subApprovedOld ∧
    (subApprovedOld.status = "approved" ∨ subApprovedOld.status = "rejected") ∧
    (∃ r, verify_kyc_submission envT
        { submissions := [subApprovedOld], face_verifications := [] }
        "kA" "admin1" "approved" (some "looks fine") =
      ({ submissions := [subApprovedOld], face_verifications := [] }, r) ∧
      r.success = false) :=
  ⟨rfl, by decide, by decide,
    (verify_kyc_submission_requires_pending envT
      { submissions := [subApprovedOld], face_verifications := [] }
      "kA" "admin1" "approved" (some "looks fine") rfl).2.1
      subApprovedOld (by decide) (by decide)⟩

/-- C8: when the detector reports several faces `_detect_face` selects
the region of the bounding box with the largest area `w * h` (first such,
per Python `max`); when it reports zero faces for an image,
`verify_faces` fails with a message naming which image lacked a face and
`is_same_person` is false. -/
theorem detect_face_largest_box_and_no_face_failure (env : Env) (img1 img2 : Img) :
    (∀ f fs, env.detect_faces img1 = Except.ok (f :: fs) →
      ∃ r, selected_face_rect (f :: fs) = some r ∧ r ∈ f :: fs ∧
        (∀ g ∈ f :: fs, g.area ≤ r.area) ∧
        detect_face env img1 = some (env.extract_region img1 r)) ∧
    (env.detect_faces img1 = Except.ok [] →
      verify_faces env img1 img2 =
        { success := false, message := "No face detected in first image",
          similarity_score := 0, is_same_person := some false }) ∧
    (env.detect_faces img2 = Except.ok [] → detect_face env img1 ≠ none →
      verify_faces env img1 img2 =
        { success := false, message := "No face detected in second image",
          similarity_score := 0, is_same_person := some false }) := by
  refine ⟨?_, ?_, ?_⟩
  · intro f fs hdet
    refine ⟨pyMaxBy Rect.area f fs, rfl, pyMaxBy_mem _ fs f,
      fun g hg => pyMaxBy_ge _ fs f g hg, ?_⟩
    simp [detect_face, hdet, selected_face_rect]
  · intro hdet
    simp [verify_faces, detect_face, hdet, selected_face_rect]
  · intro hdet h1
    rcases hface : detect_face env img1 with _ | f1
    · exact absurd hface h1
    · have h2 : detect_face env img2 = none := by
        simp [detect_face, hdet, selected_face_rect]
      simp [verify_faces, hface, h2]

/-- Witness for C8: a three-face detector output on the first image where
the second box is the largest, and a zero-face second image. -/
theorem detect_face_largest_box_witness :
    (∃ r, selected_face_rect
        [{ x := 0, y := 0, w := 2, h := 2 },
         { x := 5, y := 5, w := 9, h := 9 },
         { x := 1, y := 1, w := 3, h := 3 }] = some r ∧
      r ∈ [{ x := 0, y := 0, w := 2, h := 2 },
           { x := 5, y := 5, w := 9, h := 9 },
           { x := 1, y := 1, w := 3, h := 3 }] ∧
      (∀ g ∈ [({ x := 0, y := 0, w := 2, h := 2 } : Rect),
              { x := 5, y := 5, w := 9, h := 9 },
              { x := 1, y := 1, w := 3, h := 3 }], g.area ≤ r.area) ∧
      detect_face envFaces 1 = some (envFaces.extract_region 1 r)) ∧
    verify_faces envFaces 3 2 =
      { success := false, message := "No face detected in first image",
        similarity_score := 0, is_same_person := some false } ∧
    verify_faces envFaces 1 2 =
      { success := false, message := "No face detected in second image",
        similarity_score := 0, is_same_person := some false } := by
  refine ⟨?_, ?_, ?_⟩
  · exact (detect_face_largest_box_and_no_face_failure envFaces 1 2).1
      { x := 0, y := 0, w := 2, h := 2 }
      [{ x := 5, y := 5, w := 9, h := 9 }, { x := 1, y := 1, w := 3, h := 3 }]
      rfl
  · exact (detect_face_largest_box_and_no_face_failure envFaces 3 2).2.1 rfl
  · exact (detect_face_largest_box_and_no_face_failure envFaces 1 2).2.2
      rfl (by simp [detect_face, envFaces, envT, selected_face_rect])

/-- A string with a nonempty left part is nonempty. -/
theorem append_left_ne_empty (a b : String) (ha : a ≠ "") : a ++ b ≠ "" := by
  intro h
  apply ha
  have hl := congrArg String.length h
  rw [String.length_append] at hl
  simp at hl
  have h0 : a.length = 0 := by omega
  exact String.ext (List.length_eq_zero.mp h0)

/-- Effect of `update_kyc_status` on a found document when the notes are
truthy: the first match now carries the new status, timestamp and notes,
and the modified flag records whether the document changed. -/
theorem update_kyc_status_found (now : Nat) (db : DBState) (kid st s : String)
    (k : KYCSubmission) (hs : ¬ s = "")
    (hfind : db.submissions.find? (fun x => x.id == kid) = some k) :
    (update_kyc_status false now db kid st (some s)).1.submissions.find?
        (fun x => x.id == kid) =
      some { k with
             status := st, status_updated_at := some now,
             admin_notes := some s } ∧
    (update_kyc_status false now db kid st (some s)).2 =
      decide (({ k with
                 status := st, status_updated_at := some now,
                 admin_notes := some s } : KYCSubmission) ≠ k) := by
  have hfun : kyc_status_set_fields now st (some s) =
      fun x : KYCSubmission =>
        { x with
          status := st, status_updated_at := some now,
          admin_notes := some s } := by
    funext x
    simp [kyc_status_set_fields, hs]
  have h := listUpdateOne_find?_some (fun x => x.id == kid)
    (fun x : KYCSubmission =>
      { x with
        status := st, status_updated_at := some now,
        admin_notes := some s })
    (fun x => rfl) db.submissions k hfind
  constructor
  · simp only [update_kyc_status, hfun, Bool.false_eq_true, if_false]
    exact h.1
  · simp only [update_kyc_status, hfun, Bool.false_eq_true, if_false]
    exact h.2

/-- C3: on an approved decision, `verify_kyc_submission` persists the
local status change and, whatever the blockchain anchoring call does —
here assumed to fail outright or to return an unsuccessful result — the
submission stays approved and the decide call still reports success. -/
theorem approval_persists_despite_anchor_failure (env : Env) (db : DBState)
    (kyc_id admin_id : String) (notes : Option String) (k : KYCSubmission)
    (hf : env.db_find_id_fails = false)
    (hu : env.db_update_status_fails = false)
    (hk : get_kyc_submission_by_id false db kyc_id = some k)
    (hp : k.status = "pending")
    (hbc : is_anchor_failure
      (env.blockchain_store k.user_id kyc_id true admin_id) = true) :
    ∃ db1,
      verify_kyc_submission env db kyc_id admin_id "approved" notes =
        (db1,
          { success := true,
            message := "KYC submission " ++ "approved" ++ " successfully",
            status := some "approved",
            admin_notes :=
              some ("Verified by admin " ++ admin_id ++ ". " ++ notes.getD "") }) ∧
      get_kyc_submission_by_id false db1 kyc_id =
        some { k with
          status := "approved", status_updated_at := some env.now,
          admin_notes :=
            some ("Verified by admin " ++ admin_id ++ ". " ++ notes.getD "") } := by
  have hs : ¬ ("Verified by admin " ++ admin_id ++ ". " ++ notes.getD "") = "" :=
    append_left_ne_empty _ _
      (append_left_ne_empty _ _ (append_left_ne_empty _ _ (by decide)))
  have hfind : db.submissions.find? (fun x => x.id == kyc_id) = some k := by
    simpa [get_kyc_submission_by_id] using hk
  have hspec := update_kyc_status_found env.now db kyc_id "approved"
    ("Verified by admin " ++ admin_id ++ ". " ++ notes.getD "") k hs hfind
  have hne : ({ k with
      status := "approved", status_updated_at := some env.now,
      admin_notes :=
        some ("Verified by admin " ++ admin_id ++ ". " ++ notes.getD "") } :
      KYCSubmission) ≠ k := by
    intro h
    have hst := congrArg KYCSubmission.status h
    simp [hp] at hst
  have hflag : (update_kyc_status false env.now db kyc_id "approved"
      (some ("Verified by admin " ++ admin_id ++ ". " ++ notes.getD ""))).2 = true := by
    rw [hspec.2]
    simpa using hne
  refine ⟨(update_kyc_status false env.now db kyc_id "approved"
      (some ("Verified by admin " ++ admin_id ++ ". " ++ notes.getD ""))).1, ?_, ?_⟩
  · simp only [verify_kyc_submission, verify_kyc_submission_body, hf, hk, hp, hu]
    simp [hflag]
  · simp only [get_kyc_submission_by_id, Bool.false_eq_true, if_false]
    exact hspec.1

/-- Witness for C3: approving the pending submission `k1` while the
blockchain node is unreachable. -/
theorem approval_persists_witness :
    envT.db_find_id_fails = false ∧
    envT.db_update_status_fails = false ∧
    get_kyc_submission_by_id false
        { submissions := [subPending], face_verifications := [] } "k1" =
      some subPending ∧
    subPending.status = "pending" ∧
    is_anchor_failure (envT.blockchain_store subPending.user_id "k1" true "admin1")
      = true ∧
    (∃ db1,
      verify_kyc_submission envT
          { submissions := [subPending], face_verifications := [] }
          "k1" "admin1" "approved" (some "ok") =
        (db1,
          { success := true,
            message := "KYC submission " ++ "approved" ++ " successfully",
            status := some "approved",
            admin_notes :=
              some ("Verified by admin " ++ "admin1" ++ ". " ++
                (some "ok").getD "") }) ∧
      get_kyc_submission_by_id false db1 "k1" =
        some { subPending with
          status := "approved", status_updated_at := some envT.now,
          admin_notes :=
            some ("Verified by admin " ++ "admin1" ++ ". " ++
              (some "ok").getD "") }) :=
  ⟨rfl, rfl, by decide, rfl, rfl,
    approval_persists_despite_anchor_failure envT
      { submissions := [subPending], face_verifications := [] }
      "k1" "admin1" (some "ok") subPending rfl rfl (by decide) rfl rfl⟩

/-- The string-versus-ObjectId `_id` filter of the service's direct
`update_one` call matches no stored document. -/
theorem update_one_id_filter_false (sid : String) (k : KYCSubmission) :
    update_one_id_filter sid k = false := by
  simp [update_one_id_filter]

/-- Mongo `update_one` with a filter matching no document leaves the
collection unchanged and reports `modified_count = 0`. -/
theorem listUpdateOne_of_pred_false (p : KYCSubmission → Bool)
    (f : KYCSubmission → KYCSubmission) (hp : ∀ x, p x = false) :
    ∀ l : List KYCSubmission, listUpdateOne p f l = (l, false) := by
  intro l
  induction l with
  | nil => rfl
  | cons x xs ih => simp [listUpdateOne, hp x, ih]

/-- C4 evaluation: the `update_one` call of `update_kyc_submission`
filters `_id` by the string the service holds against the stored
ObjectId keys, so it matches no document. Hence every call — in
particular a valid patch by the owner of a pending or rejected
submission — returns a failure result (the would-be success path ends in
the no-changes message because `modified_count` stays 0) and leaves the
database unchanged: the claimed successful reset to pending is
unreachable. The closing conjunct evaluates the failing input: the owner
of the rejected submission `k0` submitting a valid corrected-address
patch. -/
theorem update_kyc_submission_never_succeeds (env : Env) (db : DBState)
    (kyc_id user_id : String) (d : UpdateData) :
    (update_kyc_submission env db kyc_id user_id d).2.success = false ∧
    (update_kyc_submission env db kyc_id user_id d).1 = db ∧
    update_kyc_submission envT dbRejected "k0" "u1" patchU =
      (dbRejected,
        { success := false,
          message := "No changes were made to KYC submission" }) := by
  have hmain : (update_kyc_submission env db kyc_id user_id d).2.success = false ∧
      (update_kyc_submission env db kyc_id user_id d).1 = db := by
    rcases hk : get_kyc_submission_by_id env.db_find_id_fails db kyc_id with _ | k
    · constructor <;>
        simp [update_kyc_submission, update_kyc_submission_body, hk]
    · by_cases how : k.user_id = user_id
      · by_cases hst : k.status = "pending" ∨ k.status = "rejected"
        · by_cases hv : (env.validate_kyc_data_partial d).valid
          · have hlu := listUpdateOne_of_pred_false (update_one_id_filter k.id)
              (fun x => apply_update_fields env x d)
              (fun x => update_one_id_filter_false k.id x) db.submissions
            rcases hfc : d.face_image with _ | v
            · by_cases hfl : env.db_update_one_fails
              · constructor <;>
                  simp [update_kyc_submission, update_kyc_submission_body, hk,
                    how, hst, hv, hfc, hfl, update_generic_failure]
              · constructor <;>
                  simp [update_kyc_submission, update_kyc_submission_body, hk,
                    how, hst, hv, hfc, hfl, hlu]
            · by_cases hq : (env.validate_image_quality v).valid
              · by_cases hfl : env.db_update_one_fails
                · constructor <;>
                    simp [update_kyc_submission, update_kyc_submission_body, hk,
                      how, hst, hv, hfc, hq, hfl, update_generic_failure]
                · constructor <;>
                    simp [update_kyc_submission, update_kyc_submission_body, hk,
                      how, hst, hv, hfc, hq, hfl, hlu]
              · constructor <;>
                  simp [update_kyc_submission, update_kyc_submission_body, hk,
                    how, hst, hv, hfc, hq]
          · constructor <;>
              simp [update_kyc_submission, update_kyc_submission_body, hk, how,
                hst, hv]
        · constructor <;>
            simp [update_kyc_submission, update_kyc_submission_body, hk, how,
              hst]
      · constructor <;>
          simp [update_kyc_submission, update_kyc_submission_body, hk, how]
  exact ⟨hmain.1, hmain.2, by decide⟩

/-- State effect of `submit_kyc`: either the database is untouched (any
failure path, including a raising insert) or — only when the user had no
pending or approved submission — exactly the new pending document was
appended. -/
theorem submit_kyc_state_cases (env : Env) (db : DBState) (uid : String)
    (d : KYCData) (hf : env.db_find_user_fails = false) :
    (submit_kyc env db uid d).1 = db ∨
    ((db.submissions.filter (fun k => k.user_id == uid)).find?
        (fun k => k.status == "pending" || k.status == "approved") = none ∧
      (submit_kyc env db uid d).1.submissions =
        db.submissions ++
          [{ build_submission_doc env uid d with
             id := env.new_object_id, submission_date := env.now,
             status := "pending", verification_attempts := 0 }]) := by
  by_cases hv : (env.validate_kyc_data d).valid
  · rcases hfind : (db.submissions.filter (fun k => k.user_id == uid)).find?
        (fun k => k.status == "pending" || k.status == "approved") with _ | kk
    · rcases hfi : d.face_image with _ | v
      · by_cases hins : env.db_insert_fails
        · left
          simp [submit_kyc, submit_kyc_body, get_kyc_submissions_by_user, hf,
            hv, hfind, hfi, create_kyc_submission, hins]
        · right
          refine ⟨hfind, ?_⟩
          simp [submit_kyc, submit_kyc_body, get_kyc_submissions_by_user, hf,
            hv, hfind, hfi, create_kyc_submission, hins]
      · by_cases hq : (env.validate_image_quality v).valid
        · by_cases hins : env.db_insert_fails
          · left
            simp [submit_kyc, submit_kyc_body, get_kyc_submissions_by_user, hf,
              hv, hfind, hfi, hq, create_kyc_submission, hins]
          · right
            refine ⟨hfind, ?_⟩
            simp [submit_kyc, submit_kyc_body, get_kyc_submissions_by_user, hf,
              hv, hfind, hfi, hq, create_kyc_submission, hins]
        · left
          simp [submit_kyc, submit_kyc_body, get_kyc_submissions_by_user, hf,
            hv, hfind, hfi, hq]
    · left
      simp [submit_kyc, submit_kyc_body, get_kyc_submissions_by_user, hf, hv,
        hfind]
  · left
    simp [submit_kyc, submit_kyc_body, hv]

/-- C1: a `submit_kyc` call for a user who already has a pending or
approved submission returns the conflict failure and creates no new
submission; consequently `submit_kyc` preserves the at-most-one
pending-or-approved-submission-per-user invariant. -/
theorem submit_kyc_conflict_and_invariant (env : Env) (db : DBState)
    (uid : String) (d : KYCData) (hf : env.db_find_user_fails = false) :
    (∀ k, (env.validate_kyc_data d).valid = true →
      (db.submissions.filter (fun x => x.user_id == uid)).find?
          (fun x => x.status == "pending" || x.status == "approved") = some k →
      submit_kyc env db uid d =
        (db, { success := false,
               message := "User already has " ++ k.status ++ " KYC submission" })) ∧
    ((∀ u, activeCount db u ≤ 1) →
      ∀ u, activeCount (submit_kyc env db uid d).1 u ≤ 1) := by
  constructor
  · intro k hv hfind
    simp [submit_kyc, submit_kyc_body, get_kyc_submissions_by_user, hf, hv,
      hfind]
  · intro hinv u
    rcases submit_kyc_state_cases env db uid d hf with h | ⟨hnone, happ⟩
    · rw [show (submit_kyc env db uid d).1 = db from h]
      exact hinv u
    · unfold activeCount at hinv ⊢
      rw [happ, List.countP_append]
      by_cases hu : u = uid
      · subst hu
        have hzero : db.submissions.countP
            (fun k => k.user_id == u && isActiveSub k) = 0 := by
          rw [List.countP_eq_zero]
          intro a ha
          by_cases hau : a.user_id == u
          · have hmem : a ∈ db.submissions.filter (fun x => x.user_id == u) :=
              List.mem_filter.mpr ⟨ha, hau⟩
            have hna := List.find?_eq_none.mp hnone a hmem
            simp only [isActiveSub, Bool.and_eq_true]
            intro hcontra
            exact hna hcontra.2
          · simp [Bool.and_eq_true, hau]
        rw [hzero]
        simp [List.countP_cons, build_submission_doc, isActiveSub]
      · have hone : List.countP (fun k => k.user_id == u && isActiveSub k)
            [({ build_submission_doc env uid d with
                id := env.new_object_id, submission_date := env.now,
                status := "pending", verification_attempts := 0 } : KYCSubmission)]
            = 0 := by
          simp [List.countP_cons, build_submission_doc, isActiveSub,
            Ne.symm hu]
        rw [hone]
        simpa using hinv u

/-- Witness for C1: a second submission for `u1`, who already has the
pending submission `k1`, is rejected with a conflict and the database is
left with its single active submission. -/
theorem submit_kyc_conflict_witness :
    envT.db_find_user_fails = false ∧
    (envT.validate_kyc_data {}).valid = true ∧
    (({ submissions := [subPending], face_verifications := [] } :
        DBState).submissions.filter (fun x => x.user_id == "u1")).find?
        (fun x => x.status == "pending" || x.status == "approved") =
      some subPending ∧
    submit_kyc envT { submissions := [subPending], face_verifications := [] }
        "u1" {} =
      ({ submissions := [subPending], face_verifications := [] },
        { success := false,
          message := "User already has " ++ subPending.status ++
            " KYC submission" }) ∧
    (∀ u, activeCount
      (submit_kyc envT { submissions := [subPending], face_verifications := [] }
        "u1" {}).1 u ≤ 1) :=
  ⟨rfl, rfl, by decide,
    (submit_kyc_conflict_and_invariant envT
      { submissions := [subPending], face_verifications := [] } "u1" {} rfl).1
      subPending rfl (by decide),
    (submit_kyc_conflict_and_invariant envT
      { submissions := [subPending], face_verifications := [] } "u1" {} rfl).2
      (by
        intro u
        simp only [activeCount, List.countP_cons, List.countP_nil]
        split <;> omega)⟩

/-- C6: `verify_face_with_stored_image` appends exactly one
`FaceVerificationRecord` whenever both images decode, whatever
`verify_faces` then reports; and appends none when the user has no
approved submission, when the approved submission has no `face_image`
key, or when either image fails to decode. -/
theorem verify_face_appends_one_audit_record (env : Env) (db : DBState)
    (uid img : String)
    (hf : env.db_find_user_fails = false)
    (hins : env.db_insert_fv_fails = false) :
    (∀ k v la sa,
      (db.submissions.filter (fun x => x.user_id == uid)).find?
          (fun x => x.status == "approved") = some k →
      k.face_image = some v →
      env.decode_image img = some la →
      decode_stored_image env v = some sa →
      (verify_face_with_stored_image env db uid img).1.face_verifications =
        db.face_verifications ++
          [{ user_id := uid, kyc_submission_id := k.id,
             similarity_score := (verify_faces env la sa).similarity_score,
             verification_result := (verify_faces env la sa).is_same_person,
             threshold_used := env.threshold, verification_date := env.now }] ∧
      (verify_face_with_stored_image env db uid img).2 = verify_faces env la sa) ∧
    ((db.submissions.filter (fun x => x.user_id == uid)).find?
        (fun x => x.status == "approved") = none →
      (verify_face_with_stored_image env db uid img).1 = db ∧
      (verify_face_with_stored_image env db uid img).2.success = false) ∧
    (∀ k, (db.submissions.filter (fun x => x.user_id == uid)).find?
        (fun x => x.status == "approved") = some k →
      k.face_image = none →
      verify_face_with_stored_image env db uid img =
        (db, { success := false,
               message := "No approved KYC submission with face image found",
               similarity_score := 0 })) ∧
    (∀ k v, (db.submissions.filter (fun x => x.user_id == uid)).find?
        (fun x => x.status == "approved") = some k →
      k.face_image = some v →
      (env.decode_image img = none ∨ decode_stored_image env v = none) →
      verify_face_with_stored_image env db uid img =
        (db, { success := false, message := "Failed to decode images",
               similarity_score := 0 })) := by
  refine ⟨?_, ?_, ?_, ?_⟩
  · intro k v la sa hfind hface hlive hstored
    rcases hL : db.submissions.filter (fun x => x.user_id == uid) with _ | ⟨a, rest⟩
    · rw [hL] at hfind
      simp at hfind
    · rw [hL] at hfind
      constructor
      · simp [verify_face_with_stored_image, verify_face_with_stored_image_body,
          get_kyc_submissions_by_user, hf, hL, hfind, hface, hlive, hstored,
          create_face_verification, hins]
      · simp [verify_face_with_stored_image, verify_face_with_stored_image_body,
          get_kyc_submissions_by_user, hf, hL, hfind, hface, hlive, hstored,
          create_face_verification, hins]
  · intro hfind
    rcases hL : db.submissions.filter (fun x => x.user_id == uid) with _ | ⟨a, rest⟩
    · constructor <;>
        simp [verify_face_with_stored_image, verify_face_with_stored_image_body,
          get_kyc_submissions_by_user, hf, hL]
    · rw [hL] at hfind
      constructor <;>
        simp [verify_face_with_stored_image, verify_face_with_stored_image_body,
          get_kyc_submissions_by_user, hf, hL, hfind]
  · intro k hfind hface
    rcases hL : db.submissions.filter (fun x => x.user_id == uid) with _ | ⟨a, rest⟩
    · rw [hL] at hfind
      simp at hfind
    · rw [hL] at hfind
      simp [verify_face_with_stored_image, verify_face_with_stored_image_body,
        get_kyc_submissions_by_user, hf, hL, hfind, hface]
  · intro k v hfind hface hdec
    rcases hL : db.submissions.filter (fun x => x.user_id == uid) with _ | ⟨a, rest⟩
    · rw [hL] at hfind
      simp at hfind
    · rw [hL] at hfind
      rcases hdec with hdec | hdec
      · rcases hst : decode_stored_image env v with _ | sa <;>
          simp [verify_face_with_stored_image, verify_face_with_stored_image_body,
            get_kyc_submissions_by_user, hf, hL, hfind, hface, hdec, hst]
      · rcases hlv : env.decode_image img with _ | la <;>
          simp [verify_face_with_stored_image, verify_face_with_stored_image_body,
            get_kyc_submissions_by_user, hf, hL, hfind, hface, hdec, hlv]

/-- Witness for C6: a verification for `u1` against the database holding
an approved submission with a stored face image, under the benign
oracles, appends exactly the one audit record. -/
theorem verify_face_appends_witness :
    envT.db_find_user_fails = false ∧
    envT.db_insert_fv_fails = false ∧
    (dbTwoApproved.submissions.filter (fun x => x.user_id == "u1")).find?
        (fun x => x.status == "approved") = some subApprovedOld ∧
    subApprovedOld.face_image = some (some "faceOld") ∧
    envT.decode_image "live" = some 1 ∧
    decode_stored_image envT (some "faceOld") = some 1 ∧
    ((verify_face_with_stored_image envT dbTwoApproved "u1" "live").1.face_verifications =
      dbTwoApproved.face_verifications ++
        [{ user_id := "u1", kyc_submission_id := subApprovedOld.id,
           similarity_score := (verify_faces envT 1 1).similarity_score,
           verification_result := (verify_faces envT 1 1).is_same_person,
           threshold_used := envT.threshold, verification_date := envT.now }] ∧
      (verify_face_with_stored_image envT dbTwoApproved "u1" "live").2 =
        verify_faces envT 1 1) :=
  ⟨rfl, rfl, by decide, rfl, rfl, rfl,
    (verify_face_appends_one_audit_record envT dbTwoApproved "u1" "live"
      rfl rfl).1 subApprovedOld (some "faceOld") 1 1 (by decide) rfl rfl rfl⟩

/-- C7 evaluation: with two approved submissions of `u1` stored in
insertion order (the older-dated `kA` first), the face verification
workflow reads the stored image of the first approved submission in
query order — `kA` — although `kB` is the approved submission with the
greatest submission date, contradicting the most-recent-approved policy
(and the code's own comment). -/
theorem face_verification_uses_first_not_latest_approved :
    (get_kyc_submissions_by_user false dbTwoApproved "u1").find?
        (fun x => x.status == "approved") = some subApprovedOld ∧
    (verify_face_with_stored_image envT dbTwoApproved "u1" "live").1.face_verifications.map
        (fun r => r.kyc_submission_id) = ["kA"] ∧
    subApprovedOld.id = "kA" ∧
    subApprovedNew ∈ dbTwoApproved.submissions ∧
    subApprovedNew.user_id = "u1" ∧
    subApprovedNew.status = "approved" ∧
    subApprovedNew.id = "kB" ∧
    subApprovedOld.submission_date < subApprovedNew.submission_date := by
  refine ⟨by decide, by decide, rfl, by decide, rfl, rfl, rfl, by decide⟩

end KYC
